import Mathlib

/-!
Shallow embedding of `src/main.py` (address geocoding and map rendering
pipeline).

Modelling conventions:
* Floating-point coordinates are embedded as rationals (`ℚ`); pandas `NaN`
  (a missing coordinate) is `Option.none`.
* The external geocoding service is a function `ℕ → GeoResponse` giving the
  response to the n-th `geolocator.geocode` call for one address; a response
  is either a found location, "no match" (Python `None`), or one of the two
  exception classes caught by `geocode_address` (`GeocoderTimedOut`,
  `GeocoderServiceError`).
* `print` side effects are recorded as a log list, `time.sleep(2)` as an
  entry in a sleep list, and each `geolocator.geocode` call bumps an attempt
  counter.
* File I/O is explicit state: `do_geocoding` returns the dataset it writes
  to `GEOCODED_FILE` together with the outcome of the completeness check;
  `create_map_from_csv` takes the prior existence/contents of the cache file
  as arguments.
-/

/-- A single response of the geocoding service to one `geolocator.geocode`
call: a location, no match (`None` in Python), or one of the two exception
classes `geocode_address` catches. -/
inductive GeoResponse : Type
  | found (lat lon : ℚ)
  | noMatch
  | timedOut
  | serviceError
deriving DecidableEq

/-- The `print` messages `geocode_address` can emit, by branch. -/
inductive LogMsg : Type
  | notFound
  | retrying
  | failedAgain
deriving DecidableEq

/-- The observable outcome of one `geocode_address` call: the returned
`(latitude, longitude)` tuple (absent components are `none`), the number of
`geolocator.geocode` calls made, the `time.sleep` durations performed, and
the diagnostic messages printed. -/
structure GeoOutcome : Type where
  latitude : Option ℚ
  longitude : Option ℚ
  attempts : ℕ
  sleeps : List ℕ
  logs : List LogMsg
deriving DecidableEq

/-- Embedding of `geocode_address` (src/main.py lines 16-38).

```
try:
    location = geolocator.geocode(address, timeout=10)
    if location: return (location.latitude, location.longitude)
    else: print(...); return (None, None)
except (GeocoderTimedOut, GeocoderServiceError):
    print(...Retrying...); time.sleep(2)
    try:
        location = geolocator.geocode(address, timeout=10)
        if location: return (location.latitude, location.longitude)
    except (GeocoderTimedOut, GeocoderServiceError):
        print(...Failed again...); return (None, None)
return (None, None)
```

Every branch returns a plain tuple: the function is total into
`GeoOutcome`, with no exception channel, mirroring that the two caught
exception classes never escape past its boundary. -/
def geocode_address (g : ℕ → GeoResponse) : GeoOutcome :=
  match g 0 with
  | .found la lo => ⟨some la, some lo, 1, [], []⟩
  | .noMatch => ⟨none, none, 1, [], [.notFound]⟩
  | .timedOut | .serviceError =>
    match g 1 with
    | .found la lo => ⟨some la, some lo, 2, [2], [.retrying]⟩
    | .noMatch => ⟨none, none, 2, [2], [.retrying]⟩
    | .timedOut | .serviceError => ⟨none, none, 2, [2], [.retrying, .failedAgain]⟩

/-- Whether a service response is one of the two exception classes that
`geocode_address` catches. -/
def GeoResponse.isTransientErr : GeoResponse → Bool
  | .timedOut => true
  | .serviceError => true
  | _ => false

/-- One row of the input table `data.csv`:
columns `address, city, state_abbr, zip, inst_name`. -/
structure AddressRecord : Type where
  address : String
  city : String
  state_abbr : String
  zip : String
  inst_name : String
deriving DecidableEq

/-- Embedding of src/main.py line 44:
`df["address"] + ', ' + df["city"] + ", " + df["state_abbr"] + " " + df["zip"]`,
applied to one row. -/
def full_address (r : AddressRecord) : String :=
  r.address ++ ", " ++ r.city ++ ", " ++ r.state_abbr ++ " " ++ r.zip

/-- Modelled from the spec's words (section 4.1), for comparison with the
source-derived `full_address`: the template string
`"\x7bstreet\x7d, \x7bcity\x7d, \x7bstate\x7d \x7bzip\x7d"`. -/
def normalizerSpec (street city state zip : String) : String :=
  street ++ ", " ++ city ++ ", " ++ state ++ " " ++ zip

/-- One row of the persisted cache file `geocoded.csv`: the input columns
plus `full_address, latitude, longitude` (absent coordinates are `none`,
written as empty cells / `NaN`). -/
structure GeoRow : Type where
  record : AddressRecord
  full_address : String
  latitude : Option ℚ
  longitude : Option ℚ
deriving DecidableEq

/-- The per-address geocoding service: given a full address string, the
sequence of responses the service gives to successive lookup calls for it. -/
def GeoService : Type := String → ℕ → GeoResponse

/-- One row of the geocoding pass of `do_geocoding`: build `full_address`
and apply `geocode_address` to it, yielding the row written to the cache. -/
def geocodeRow (svc : GeoService) (r : AddressRecord) : GeoRow :=
  let o := geocode_address (svc (full_address r))
  ⟨r, full_address r, o.latitude, o.longitude⟩

/-- The `ValueError` raised by `do_geocoding` when the completeness check
fails, carrying the counts from its message
(`"Successfully geocoded {len(df_valid)} out of {len(df)} addresses..."`). -/
structure DQError : Type where
  geocoded : ℕ
  total : ℕ
deriving DecidableEq

/-- A cache row is kept by `df.dropna(subset=['latitude', 'longitude'])`
iff both coordinates are present. -/
def GeoRow.resolved (row : GeoRow) : Bool :=
  row.latitude.isSome && row.longitude.isSome

/-- Embedding of `do_geocoding` (src/main.py lines 41-66).

Returns, in order: the dataset written to `GEOCODED_FILE` by
`df.to_csv(...)` (one row per input row, written unconditionally, before
the check), the number of `geocode_address` invocations performed by the
`apply` (one per input row), and the outcome of the completeness check run
after the write (`.error` models the `raise ValueError(...)`). The written
dataset is the same value in both outcomes: the error path does not touch
the file. -/
def do_geocoding (svc : GeoService) (input : List AddressRecord) :
    List GeoRow × ℕ × Except DQError Unit :=
  let file := input.map (geocodeRow svc)
  let valid := file.filter GeoRow.resolved
  (file, input.length,
    if valid.length = file.length then Except.ok ()
    else Except.error ⟨valid.length, file.length⟩)

/-- The fixed 16-color palette of `create_map_from_csv`
(src/main.py lines 104-105). -/
def colors : List String :=
  ["red", "blue", "green", "purple", "orange", "cyan", "magenta", "lime",
   "brown", "pink", "gray", "olive", "teal", "navy", "maroon", "gold"]

/-- One scatter marker: `ax.scatter(row['longitude'], row['latitude'],
color=colors[index], label=row['inst_name'])`. A missing coordinate is
carried through as `none` (pandas `NaN`). -/
structure Marker : Type where
  longitude : Option ℚ
  latitude : Option ℚ
  color : String
  label : String
deriving DecidableEq

/-- The marker-plotting loop (src/main.py lines 108-114):
`for index, row in df.iterrows(): color = colors[index]; ax.scatter(...)`.
`colors[index]` is plain Python list indexing with no modulo, so an index
past the end of the palette raises `IndexError`, modelled as `none`. -/
def markersOf : ℕ → List GeoRow → Option (List Marker)
  | _, [] => some []
  | i, row :: rest =>
    match colors[i]? with
    | none => none
    | some c =>
      match markersOf (i + 1) rest with
      | none => none
      | some ms => some (⟨row.longitude, row.latitude, c, row.record.inst_name⟩ :: ms)

/-- The argument of `ax.set_extent`: `[x0, x1, y0, y1]`. -/
structure Extent : Type where
  x0 : ℚ
  x1 : ℚ
  y0 : ℚ
  y1 : ℚ
deriving DecidableEq

/-- pandas `Series.min` over the present (non-`NaN`) values. -/
def qmin : List ℚ → Option ℚ
  | [] => none
  | x :: xs => some (xs.foldl min x)

/-- pandas `Series.max` over the present (non-`NaN`) values. -/
def qmax : List ℚ → Option ℚ
  | [] => none
  | x :: xs => some (xs.foldl max x)

/-- The present longitude values of the dataset (pandas skips `NaN` when
taking `min`/`max`). -/
def lonsOf (df : List GeoRow) : List ℚ := df.filterMap GeoRow.longitude

/-- The present latitude values of the dataset. -/
def latsOf (df : List GeoRow) : List ℚ := df.filterMap GeoRow.latitude

/-- The extent set by src/main.py lines 122-127:
`[min_lon - .3, max_lon + .5, min_lat - 1.7, max_lat + 0.3]`. When a
coordinate column has no present value at all its `min`/`max` is `NaN` and
`set_extent` fails, modelled as `none`. -/
def extentOf (df : List GeoRow) : Option Extent :=
  match qmin (lonsOf df), qmax (lonsOf df), qmin (latsOf df), qmax (latsOf df) with
  | some a, some b, some c, some d =>
    some ⟨a - 3/10, b + 5/10, c - 17/10, d + 3/10⟩
  | _, _, _, _ => none

/-- Ways the rendering half of `create_map_from_csv` can raise:
`IndexError` from `colors[index]` in the marker loop, or the `set_extent`
failure when a coordinate column is all-`NaN`. -/
inductive RenderErr : Type
  | indexError
  | nanExtent
deriving DecidableEq

/-- The figure written by `fig.savefig('address_map.png', ...)`: the
plotted markers (in row order) and the map extent. -/
structure MapImage : Type where
  markers : List Marker
  extent : Extent
deriving DecidableEq

/-- Embedding of the rendering part of `create_map_from_csv`
(src/main.py lines 80-131), applied to the dataset read back from
`GEOCODED_FILE`:

* `if df.empty: print(...); return` — no image, no error (`.ok none`);
* otherwise the marker loop runs first (it may raise `IndexError`), then
  `set_extent` (it may fail on an all-`NaN` column), then
  `fig.savefig(...)` writes the image (`.ok (some img)`).

No row is dropped anywhere on this path: every row of `df`, resolved or
not, gets a marker and a legend entry. -/
def render_map (df : List GeoRow) : Except RenderErr (Option MapImage) :=
  if df.isEmpty then Except.ok none
  else
    match markersOf 0 df with
    | none => Except.error RenderErr.indexError
    | some ms =>
      match extentOf df with
      | none => Except.error RenderErr.nanExtent
      | some e => Except.ok (some ⟨ms, e⟩)

/-- A fatal error of one whole run of `create_map_from_csv`. -/
inductive PipelineErr : Type
  | dataQuality (d : DQError)
  | render (e : RenderErr)
deriving DecidableEq

/-- The observable outcome of one `create_map_from_csv` run. -/
structure RunOutcome : Type where
  /-- Number of `geocode_address` invocations this run made. -/
  clientCalls : ℕ
  /-- Whether `do_geocoding` was invoked at all. -/
  ranGeocoding : Bool
  /-- The dataset written to `GEOCODED_FILE` this run, if any. -/
  fileWritten : Option (List GeoRow)
  /-- `.ok (some img)` when an image file was written, `.ok none` when the
  run ended cleanly without an image, `.error` when it raised. -/
  result : Except PipelineErr (Option MapImage)

/-- Embedding of `create_map_from_csv` (src/main.py lines 69-131).

`cacheExists` and `cache` model `Path(GEOCODED_FILE).exists()` and the
file's contents at entry; `input` models `data.csv`. When the cache file
exists, `do_geocoding` is skipped entirely and the cached dataset is
rendered as read. Otherwise `do_geocoding` runs; if its completeness check
raises, the run halts (file already written); else the freshly written
file is read back and rendered. -/
def create_map_from_csv (cacheExists : Bool) (cache : List GeoRow)
    (svc : GeoService) (input : List AddressRecord) : RunOutcome :=
  if cacheExists then
    ⟨0, false, none, (render_map cache).mapError PipelineErr.render⟩
  else
    match do_geocoding svc input with
    | (file, calls, Except.error d) =>
      ⟨calls, true, some file, Except.error (PipelineErr.dataQuality d)⟩
    | (file, calls, Except.ok ()) =>
      ⟨calls, true, some file, (render_map file).mapError PipelineErr.render⟩

/-! ### Concrete fixtures used by witnesses and counterexamples -/

/-- A sample input row. -/
def recA : AddressRecord := ⟨"1 A St", "Boston", "MA", "02101", "Alpha"⟩

/-- A second sample input row. -/
def recB : AddressRecord := ⟨"2 B St", "Salem", "MA", "01970", "Beta"⟩

/-- A third sample input row. -/
def recC : AddressRecord := ⟨"3 C St", "Lowell", "MA", "01852", "Gamma"⟩

/-- A service that resolves every address except `recC`, which times out on
every attempt. -/
def svc3 : GeoService := fun a _ =>
  if a = full_address recC then GeoResponse.timedOut else GeoResponse.found 42 (-71)

/-- A per-address responder that raises `GeocoderTimedOut` on every call. -/
def svcErr : ℕ → GeoResponse := fun _ => GeoResponse.timedOut

/-- A per-address responder that raises on the first call and finds
`(42, -71)` on the second. -/
def svcRetry : ℕ → GeoResponse := fun n =>
  if n = 0 then GeoResponse.serviceError else GeoResponse.found 42 (-71)

/-- A per-address responder that returns no match on every call. -/
def svcNoMatch : ℕ → GeoResponse := fun _ => GeoResponse.noMatch

/-- A fully resolved cache row. -/
def rowResolved : GeoRow := ⟨recA, full_address recA, some 42, some (-71)⟩

/-- A cache row with both coordinates absent (an unresolved address as
persisted by `do_geocoding`). -/
def rowUnresolved : GeoRow := ⟨recB, full_address recB, none, none⟩

/-- A cached dataset mixing one resolved and one unresolved row. -/
def dfMixed : List GeoRow := [rowResolved, rowUnresolved]

/-- The figure `render_map` produces from `dfMixed`: both rows plotted,
the unresolved one included. -/
def imgMixed : MapImage :=
  ⟨[⟨some (-71), some 42, "red", "Alpha"⟩, ⟨none, none, "blue", "Beta"⟩],
   ⟨-71 - 3/10, -71 + 5/10, 42 - 17/10, 42 + 3/10⟩⟩

/-- A one-row fully resolved cached dataset. -/
def dfOne : List GeoRow := [rowResolved]

/-- The figure `render_map` produces from `dfOne`. -/
def imgOne : MapImage :=
  ⟨[⟨some (-71), some 42, "red", "Alpha"⟩],
   ⟨-71 - 3/10, -71 + 5/10, 42 - 17/10, 42 + 3/10⟩⟩

/-- A cached dataset of 17 fully resolved rows: one more than the palette. -/
def df17 : List GeoRow := (List.range 17).map fun n =>
  ⟨⟨"a", "b", "c", "d", "I"⟩, "a, b, c d", some (n : ℚ), some (n : ℚ)⟩

/-! ### Theorems -/

/-- Claim C3: when the geocoding service raises a timeout or
transient-service error on every attempt, `geocode_address` performs
exactly two lookup attempts, returns absent coordinates for both latitude
and longitude, and (as the plain `GeoOutcome` return type records) no
exception of those classes escapes past its boundary. -/
theorem geocode_address_two_failures (g : ℕ → GeoResponse)
    (h0 : (g 0).isTransientErr = true) (h1 : (g 1).isTransientErr = true) :
    geocode_address g
      = ⟨none, none, 2, [2], [LogMsg.retrying, LogMsg.failedAgain]⟩ := by
  rcases hg0 : g 0 <;> rcases hg1 : g 1 <;>
    simp_all [geocode_address, GeoResponse.isTransientErr]

/-- Witness for C3 at the always-timing-out responder. -/
theorem geocode_address_two_failures_witness :
    (svcErr 0).isTransientErr = true ∧ (svcErr 1).isTransientErr = true ∧
    geocode_address svcErr
      = ⟨none, none, 2, [2], [LogMsg.retrying, LogMsg.failedAgain]⟩ :=
  ⟨rfl, rfl, geocode_address_two_failures svcErr rfl rfl⟩

/-- Claim C4: when the first geocoding attempt raises a timeout or
transient-service error and the second attempt returns a location,
`geocode_address` returns that location's `(latitude, longitude)`, with a
single fixed backoff sleep of 2 time units between the two attempts. -/
theorem geocode_address_retry_success (g : ℕ → GeoResponse) (la lo : ℚ)
    (h0 : (g 0).isTransientErr = true) (h1 : g 1 = GeoResponse.found la lo) :
    geocode_address g = ⟨some la, some lo, 2, [2], [LogMsg.retrying]⟩ := by
  rcases hg0 : g 0 <;> simp_all [geocode_address, GeoResponse.isTransientErr]

/-- Witness for C4 at a responder that errors once then finds `(42, -71)`. -/
theorem geocode_address_retry_success_witness :
    (svcRetry 0).isTransientErr = true ∧ svcRetry 1 = GeoResponse.found 42 (-71) ∧
    geocode_address svcRetry
      = ⟨some 42, some (-71), 2, [2], [LogMsg.retrying]⟩ :=
  ⟨rfl, rfl, geocode_address_retry_success svcRetry 42 (-71) rfl rfl⟩

/-- Claim C5: when the first geocoding attempt completes without error but
returns no match, `geocode_address` performs exactly one lookup attempt (no
retry, no sleep), prints one diagnostic notice, and returns both
coordinates absent. -/
theorem geocode_address_no_match (g : ℕ → GeoResponse)
    (h : g 0 = GeoResponse.noMatch) :
    geocode_address g = ⟨none, none, 1, [], [LogMsg.notFound]⟩ := by
  simp [geocode_address, h]

/-- Witness for C5 at the always-no-match responder. -/
theorem geocode_address_no_match_witness :
    svcNoMatch 0 = GeoResponse.noMatch ∧
    geocode_address svcNoMatch = ⟨none, none, 1, [], [LogMsg.notFound]⟩ :=
  ⟨rfl, geocode_address_no_match svcNoMatch rfl⟩

/-- Claim C10: for every service behavior, the pair returned by
`geocode_address` is all-or-nothing: either both latitude and longitude are
present or both are absent; it never returns exactly one present
coordinate. -/
theorem geocode_address_all_or_nothing (g : ℕ → GeoResponse) :
    (∃ la lo : ℚ, (geocode_address g).latitude = some la
        ∧ (geocode_address g).longitude = some lo)
    ∨ ((geocode_address g).latitude = none
        ∧ (geocode_address g).longitude = none) := by
  unfold geocode_address
  rcases g 0 with ⟨la, lo⟩ | _ | _ | _
  · exact Or.inl ⟨la, lo, rfl, rfl⟩
  · exact Or.inr ⟨rfl, rfl⟩
  · rcases g 1 with ⟨la, lo⟩ | _ | _ | _
    · exact Or.inl ⟨la, lo, rfl, rfl⟩
    · exact Or.inr ⟨rfl, rfl⟩
    · exact Or.inr ⟨rfl, rfl⟩
    · exact Or.inr ⟨rfl, rfl⟩
  · rcases g 1 with ⟨la, lo⟩ | _ | _ | _
    · exact Or.inl ⟨la, lo, rfl, rfl⟩
    · exact Or.inr ⟨rfl, rfl⟩
    · exact Or.inr ⟨rfl, rfl⟩
    · exact Or.inr ⟨rfl, rfl⟩

/-- Filtering a list that contains an element failing the predicate makes
it strictly shorter. -/
theorem length_filter_lt {α : Type} (p : α → Bool) (l : List α)
    (h : ∃ x ∈ l, p x = false) : (l.filter p).length < l.length := by
  induction l with
  | nil => rcases h with ⟨x, hx, _⟩; exact absurd hx (List.not_mem_nil x)
  | cons a l ih =>
    rcases h with ⟨x, hx, hpx⟩
    rcases List.mem_cons.mp hx with rfl | hxl
    · rw [List.filter_cons_of_neg (by simp [hpx])]
      have hle := List.length_filter_le p l
      simp only [List.length_cons]
      omega
    · by_cases hpa : p a = true
      · rw [List.filter_cons_of_pos hpa]
        have := ih ⟨x, hxl, hpx⟩
        simp only [List.length_cons]
        omega
      · rw [List.filter_cons_of_neg (by simpa using hpa)]
        have hle := List.length_filter_le p l
        simp only [List.length_cons]
        omega

/-- Claim C1: on any input where at least one row fails to resolve,
`do_geocoding` persists the complete dataset to the cache file — one output
row per input row, unresolved rows included with absent coordinates — and
only afterwards raises the fatal data-quality error; the persisted file is
exactly the full geocoded dataset, not rolled back or modified by the error
path. -/
theorem do_geocoding_persists_then_raises (svc : GeoService)
    (input : List AddressRecord)
    (hbad : ∃ r ∈ input, (geocodeRow svc r).resolved = false) :
    ∃ dq : DQError,
      do_geocoding svc input
        = (input.map (geocodeRow svc), input.length, Except.error dq)
      ∧ (input.map (geocodeRow svc)).length = input.length
      ∧ ∀ r ∈ input, geocodeRow svc r ∈ input.map (geocodeRow svc) := by
  obtain ⟨r, hr, hres⟩ := hbad
  have hlt : ((input.map (geocodeRow svc)).filter GeoRow.resolved).length
      < (input.map (geocodeRow svc)).length :=
    length_filter_lt _ _ ⟨geocodeRow svc r, List.mem_map_of_mem _ hr, hres⟩
  refine ⟨⟨((input.map (geocodeRow svc)).filter GeoRow.resolved).length,
      (input.map (geocodeRow svc)).length⟩, ?_, by simp, ?_⟩
  · simp only [do_geocoding]
    rw [if_neg (Nat.ne_of_lt hlt)]
  · intro r' hr'
    exact List.mem_map_of_mem _ hr'

/-- Witness for C1: three addresses, two resolving and one timing out on
every attempt; the persisted file has all three rows and the check raises. -/
theorem do_geocoding_persists_then_raises_witness :
    (∃ r ∈ [recA, recB, recC], (geocodeRow svc3 r).resolved = false) ∧
    ∃ dq : DQError,
      do_geocoding svc3 [recA, recB, recC]
        = ([recA, recB, recC].map (geocodeRow svc3), 3, Except.error dq)
      ∧ ([recA, recB, recC].map (geocodeRow svc3)).length = 3
      ∧ ∀ r ∈ [recA, recB, recC],
          geocodeRow svc3 r ∈ [recA, recB, recC].map (geocodeRow svc3) := by
  have hbad : ∃ r ∈ [recA, recB, recC], (geocodeRow svc3 r).resolved = false :=
    ⟨recC, by simp, by decide⟩
  exact ⟨hbad, do_geocoding_persists_then_raises svc3 [recA, recB, recC] hbad⟩

/-- Claim C2: when the cache artifact file already exists, the pipeline
makes zero geocoding-client calls, never invokes `do_geocoding`, writes no
new cache file, and renders the cached dataset exactly as read — whatever
its contents, complete or not. -/
theorem create_map_cache_hit_skips_geocoding (cache : List GeoRow)
    (svc : GeoService) (input : List AddressRecord) :
    create_map_from_csv true cache svc input
      = ⟨0, false, none, (render_map cache).mapError PipelineErr.render⟩ := rfl

/-- Claim C8: for every record with all four textual fields, the normalizer
line produces exactly the spec's template string
(street, comma-space, city, comma-space, state, space, zip); it is a pure
function of those four fields alone, so identical inputs give identical
output. -/
theorem full_address_refines_normalizer :
    (∀ r : AddressRecord,
      full_address r = normalizerSpec r.address r.city r.state_abbr r.zip)
    ∧ ∀ r s : AddressRecord, r.address = s.address → r.city = s.city →
        r.state_abbr = s.state_abbr → r.zip = s.zip →
        full_address r = full_address s := by
  refine ⟨fun r => rfl, fun r s h1 h2 h3 h4 => ?_⟩
  simp [full_address, h1, h2, h3, h4]

/-- Witness for C8: a concrete record, compared with a copy differing only
in the institution-name field. -/
theorem full_address_refines_normalizer_witness :
    full_address recA = normalizerSpec "1 A St" "Boston" "MA" "02101"
    ∧ full_address recA
        = full_address ⟨"1 A St", "Boston", "MA", "02101", "Omega"⟩ :=
  ⟨full_address_refines_normalizer.1 recA,
   full_address_refines_normalizer.2 recA
     ⟨"1 A St", "Boston", "MA", "02101", "Omega"⟩ rfl rfl rfl rfl⟩

/-- The marker loop yields one marker per dataset row when it succeeds. -/
theorem markersOf_length (df : List GeoRow) :
    ∀ (i : ℕ) (ms : List Marker),
      markersOf i df = some ms → ms.length = df.length := by
  induction df with
  | nil =>
    intro i ms h
    simp only [markersOf, Option.some.injEq] at h
    simp [← h]
  | cons row rest ih =>
    intro i ms h
    cases hc : colors[i]? with
    | none => simp [markersOf, hc] at h
    | some c =>
      cases hm : markersOf (i + 1) rest with
      | none => simp [markersOf, hc, hm] at h
      | some ms' =>
        simp only [markersOf, hc, hm, Option.some.injEq] at h
        subst h
        simp [ih (i + 1) ms' hm]

/-- Counterexample to claim C6: a cached dataset of one resolved and one
unresolved row renders two markers — the row with absent coordinates is
plotted (with a legend entry), not dropped: the plotted marker count (2)
differs from the count of rows surviving a drop of unresolved rows (1). -/
theorem render_map_keeps_unresolved_rows_counterexample :
    render_map dfMixed = Except.ok (some imgMixed)
    ∧ imgMixed.markers.length = 2
    ∧ (dfMixed.filter GeoRow.resolved).length = 1 :=
  ⟨rfl, rfl, rfl⟩

/-- Claim C6 as amended: at render time no rows are dropped — whenever the
renderer writes an image it contains one marker per cached row, rows with
absent coordinates included — and the renderer terminates cleanly without
writing an image and without raising exactly when the cached dataset itself
is empty: a nonempty dataset either gets an image or raises, never the
clean no-image exit. -/
theorem render_map_plots_every_row :
    (∀ (df : List GeoRow) (img : MapImage),
        render_map df = Except.ok (some img) → img.markers.length = df.length)
    ∧ ∀ df : List GeoRow, render_map df = Except.ok none ↔ df = [] := by
  constructor
  · intro df img h
    unfold render_map at h
    by_cases he : df.isEmpty
    · rw [if_pos he] at h
      simp at h
    · rw [if_neg he] at h
      cases hm : markersOf 0 df with
      | none => rw [hm] at h; simp at h
      | some ms =>
        rw [hm] at h
        cases hx : extentOf df with
        | none => rw [hx] at h; simp at h
        | some e =>
          rw [hx] at h
          simp only [Except.ok.injEq, Option.some.injEq] at h
          subst h
          exact markersOf_length df 0 ms hm
  · intro df
    constructor
    · intro h
      unfold render_map at h
      by_cases he : df.isEmpty
      · exact List.isEmpty_iff.mp he
      · rw [if_neg he] at h
        cases hm : markersOf 0 df with
        | none => rw [hm] at h; simp at h
        | some ms =>
          rw [hm] at h
          cases hx : extentOf df with
          | none => rw [hx] at h; simp at h
          | some e => rw [hx] at h; simp at h
    · intro h
      subst h
      rfl

/-- Witness for the amended C6: at the mixed dataset the image has one
marker per row, the unresolved one included, and the clean no-image exit
characterisation instantiated at the empty dataset. -/
theorem render_map_plots_every_row_witness :
    render_map dfMixed = Except.ok (some imgMixed)
    ∧ imgMixed.markers.length = dfMixed.length
    ∧ (render_map ([] : List GeoRow) = Except.ok none ↔ ([] : List GeoRow) = []) :=
  ⟨rfl, render_map_plots_every_row.1 dfMixed imgMixed rfl,
   render_map_plots_every_row.2 []⟩

/-- Claim C7, evaluated at the failing input: on a cached dataset of 17
fully resolved rows the marker loop evaluates `colors[16]` on the 16-color
palette and raises `IndexError` — rendering does not succeed for row counts
beyond the palette size, and no cyclic color reuse happens. -/
theorem render_map_seventeen_rows_raises :
    render_map df17 = Except.error RenderErr.indexError := rfl

/-- Claim C9: whenever the renderer writes an image, its visible extent is
exactly `[min_lon - 0.3, max_lon + 0.5, min_lat - 1.7, max_lat + 0.3]`
computed from the dataset's present longitude and latitude values. -/
theorem render_map_extent_formula (df : List GeoRow) (img : MapImage)
    (a b c d : ℚ)
    (h : render_map df = Except.ok (some img))
    (ha : qmin (lonsOf df) = some a) (hb : qmax (lonsOf df) = some b)
    (hc : qmin (latsOf df) = some c) (hd : qmax (latsOf df) = some d) :
    img.extent = ⟨a - 3/10, b + 5/10, c - 17/10, d + 3/10⟩ := by
  unfold render_map at h
  by_cases he : df.isEmpty
  · rw [if_pos he] at h
    simp at h
  · rw [if_neg he] at h
    cases hm : markersOf 0 df with
    | none => rw [hm] at h; simp at h
    | some ms =>
      rw [hm] at h
      cases hx : extentOf df with
      | none => rw [hx] at h; simp at h
      | some e =>
        rw [hx] at h
        simp only [Except.ok.injEq, Option.some.injEq] at h
        unfold extentOf at hx
        rw [ha, hb, hc, hd] at hx
        simp only [Option.some.injEq] at hx
        subst h
        simp [← hx]

/-- Witness for C9 at a one-row dataset resolved to `(42, -71)`. -/
theorem render_map_extent_formula_witness :
    render_map dfOne = Except.ok (some imgOne)
    ∧ qmin (lonsOf dfOne) = some (-71) ∧ qmax (lonsOf dfOne) = some (-71)
    ∧ qmin (latsOf dfOne) = some 42 ∧ qmax (latsOf dfOne) = some 42
    ∧ imgOne.extent = ⟨-71 - 3/10, -71 + 5/10, 42 - 17/10, 42 + 3/10⟩ :=
  ⟨rfl, rfl, rfl, rfl, rfl,
   render_map_extent_formula dfOne imgOne (-71) (-71) 42 42 rfl rfl rfl rfl rfl⟩
